import Mathlib

/-!
Shallow embedding of `packages/@angular/cli/commands/build.ts`
(`BuildCommand.validate` and `BuildCommand.run`): the build orchestrator that
runs a client build and, conditionally, a server ("app shell") build followed
by a universal render step.

External collaborators (configuration lookup `getAppFromConfig`, the build
task, the render task, the two version assertions) are opaque to the source
file; they are modelled as parameters (`Env`, `Except`-valued checks).
The orchestrator itself is translated statement by statement from the source.
Invocations of the external collaborators are recorded in a trace of events so
that claims about "who gets called, with what, in which order" are statable.
-/

/-- The shell descriptor attached to a client application in the project
configuration: `clientApp.appShell` in the source, with fields
`app` (reference to the companion server application) and `route`. -/
structure ShellDescriptor where
  app : String
  route : String
deriving DecidableEq

/-- An application descriptor as returned by `getAppFromConfig`: the fields
of it that `BuildCommand.run` reads (`platform`, `outDir`, `index`,
`appShell`). -/
structure AppDescriptor where
  platform : String
  outDir : String
  index : String
  appShell : Option ShellDescriptor
deriving DecidableEq

/-- The fields of `BuildTaskOptions` that `BuildCommand.run` reads or writes
(`target`, `aot`, `skipAppShell`, `deployUrl`, `app`), plus `rest`, which
stands for all remaining pass-through option fields (sourcemaps, baseHref,
outputPath, ...) that the orchestrator never touches.  `aot` and `deployUrl`
are optional (`undefined` in the source is `none` here). -/
structure BuildTaskOptions where
  target : String
  aot : Option Bool
  skipAppShell : Bool
  deployUrl : Option String
  app : Option String
  rest : List (String × String)
deriving DecidableEq

/-- The options record handed to `RenderUniversalTask.run`
(`renderUniversalOptions` in the source). -/
structure RenderUniversalTaskOptions where
  inputIndexPath : String
  route : String
  serverOutDir : String
  outputIndexPath : String
deriving DecidableEq

/-- Errors the orchestrator can raise.  `platformMismatch` is the
`SilentError` thrown when the shell app's platform is not `"server"`;
`selectorNotFound` is the failure of `getAppFromConfig`; `versionTooLow`
is a failure of one of the two version assertions in `validate`. -/
inductive Err where
  | platformMismatch (msg : String)
  | selectorNotFound
  | versionTooLow (msg : String)
deriving DecidableEq

/-- One observable invocation of an external collaborator during a run. -/
inductive Event where
  | resolveCall (selector : Option String)
  | buildCall (opts : BuildTaskOptions)
  | renderCall (opts : RenderUniversalTaskOptions)
deriving DecidableEq

/-- The external collaborators of the orchestrator: the configuration
resolver (`getAppFromConfig`, `none` = selector not found), the build task
and the render task.  Build and render results are opaque values of `α`. -/
structure Env (α : Type) where
  resolve : Option String → Option AppDescriptor
  buildTask : BuildTaskOptions → α
  renderTask : RenderUniversalTaskOptions → α

/-- Last character of a string, `none` when empty: `s.substr(-1)` in the
source (which is only ever read behind a non-emptiness truthiness guard). -/
def lastChar (s : String) : Option Char :=
  s.data.getLast?

/-- The deploy-URL normalization at the top of `BuildCommand.run`:
`if (options.deployUrl && options.deployUrl.substr(-1) !== '/') {
  options.deployUrl += '/'; }`.
JavaScript truthiness makes the empty string fail the first conjunct. -/
def normalizeDeployUrl : Option String → Option String
  | none => none
  | some s => if s ≠ "" ∧ lastChar s ≠ some '/' then some (s ++ "/") else some s

/-- The one mutation `run` applies to its incoming options. -/
def normalizeOptions (o : BuildTaskOptions) : BuildTaskOptions :=
  { o with deployUrl := normalizeDeployUrl o.deployUrl }

/-- `const doAppShell = options.target === 'production' &&
(options.aot === undefined || options.aot === true) && !options.skipAppShell`. -/
def doAppShell (o : BuildTaskOptions) : Bool :=
  (o.target == "production") && (o.aot == none || o.aot == some true)
    && !o.skipAppShell

/-- Node's `path.join` on two already-clean segments, as used by
`BuildCommand.run` (`join(this.project.root, app.outDir, app.index)`):
concatenation with a single separator, skipping empty segments. -/
def pathJoin (a b : String) : String :=
  if a = "" then b else if b = "" then a else a ++ "/" ++ b

/-- `BuildCommand.run`, translated from the source.  `root` is
`this.project.root`.  Returns the trace of external invocations together
with the run's outcome.

Source shape: normalize the deploy URL; resolve the client app; compute
`doAppShell`; if the client app has a shell descriptor and `doAppShell`
holds, resolve the server app and throw unless its platform is `"server"`;
run the client build; return its result unless the shell pipeline is on;
otherwise run the server build with `{...options, app: clientApp.appShell.app}`
and finally the render task, whose result is returned. -/
def run {α : Type} (env : Env α) (root : String) (options0 : BuildTaskOptions) :
    List Event × Except Err α :=
  let options := normalizeOptions options0
  match env.resolve options.app with
  | none => ([Event.resolveCall options.app], Except.error Err.selectorNotFound)
  | some clientApp =>
    match clientApp.appShell, doAppShell options with
    | some shellDesc, true =>
      match env.resolve (some shellDesc.app) with
      | none =>
        ([Event.resolveCall options.app, Event.resolveCall (some shellDesc.app)],
          Except.error Err.selectorNotFound)
      | some serverApp =>
        if serverApp.platform ≠ "server" then
          ([Event.resolveCall options.app, Event.resolveCall (some shellDesc.app)],
            Except.error (Err.platformMismatch "Shell app's platform is not \"server\""))
        else
          let clientIndexPath := pathJoin (pathJoin root clientApp.outDir) clientApp.index
          let serverOptions := { options with app := some shellDesc.app }
          let renderUniversalOptions : RenderUniversalTaskOptions :=
            { inputIndexPath := clientIndexPath
              route := shellDesc.route
              serverOutDir := pathJoin root serverApp.outDir
              outputIndexPath := clientIndexPath }
          ([Event.resolveCall options.app, Event.resolveCall (some shellDesc.app),
            Event.buildCall options, Event.buildCall serverOptions,
            Event.renderCall renderUniversalOptions],
            Except.ok (env.renderTask renderUniversalOptions))
    | _, _ =>
      ([Event.resolveCall options.app, Event.buildCall options],
        Except.ok (env.buildTask options))

/-- `BuildCommand.validate`: asserts a minimum framework version, then a
minimum TypeScript version, then returns `true`.  The two external
assertions are modelled as `Except`-valued parameters; a thrown assertion
short-circuits the method. -/
def validate (fwCheck tsCheck : Except Err Unit) : Except Err Bool :=
  match fwCheck with
  | Except.error e => Except.error e
  | Except.ok _ =>
    match tsCheck with
    | Except.error e => Except.error e
    | Except.ok _ => Except.ok true

/-- Modelled from the spec: the command framework (outside this source file)
invokes `validate` before `run`, and a validation failure aborts the run
before any build work.  `fullRun` composes the two accordingly. -/
def fullRun {α : Type} (fwCheck tsCheck : Except Err Unit) (env : Env α)
    (root : String) (options0 : BuildTaskOptions) : List Event × Except Err α :=
  match validate fwCheck tsCheck with
  | Except.error e => ([], Except.error e)
  | Except.ok _ => run env root options0

/-- `true` when the trace contains a render invocation, i.e. the shell
pipeline ran to its final stage. -/
def ranShell (t : List Event) : Bool :=
  t.any fun e => match e with
    | Event.renderCall _ => true
    | _ => false

/-- `true` when the trace contains a build invocation of the given options. -/
def calledBuild (t : List Event) : Bool :=
  t.any fun e => match e with
    | Event.buildCall _ => true
    | _ => false

/-- Number of build invocations in a trace. -/
def buildCalls (t : List Event) : Nat :=
  (t.filter fun e => match e with
    | Event.buildCall _ => true
    | _ => false).length

/-- `true` when the trace contains a resolve invocation with the given
selector. -/
def resolvedSelector (t : List Event) (sel : Option String) : Bool :=
  t.any fun e => match e with
    | Event.resolveCall s => s == sel
    | _ => false


/-- The build/render invocations of a trace in order, resolver lookups
dropped. -/
def invocations (t : List Event) : List Event :=
  t.filter fun e => match e with
    | Event.resolveCall _ => false
    | _ => true

/-! ### Concrete fixtures used by witnesses and counterexamples -/

/-- A shell descriptor routing `"/"` to the server application `"srv"`. -/
def sampleShell : ShellDescriptor :=
  { app := "srv", route := "/" }

/-- A server application descriptor with platform `"server"`. -/
def sampleServer : AppDescriptor :=
  { platform := "server", outDir := "dist-server", index := "index.html",
    appShell := none }

/-- A misconfigured companion application: referenced as the shell's server
app but declaring platform `"browser"`. -/
def badServer : AppDescriptor :=
  { platform := "browser", outDir := "dist-server", index := "index.html",
    appShell := none }

/-- A client application that declares an app shell. -/
def shellClient : AppDescriptor :=
  { platform := "browser", outDir := "dist", index := "index.html",
    appShell := some sampleShell }

/-- A client application without a shell descriptor. -/
def plainClient : AppDescriptor :=
  { platform := "browser", outDir := "dist", index := "index.html",
    appShell := none }

/-- Environment where the shell's server app is correctly configured. -/
def shellEnv : Env Nat :=
  { resolve := fun sel => if sel = some "srv" then some sampleServer else some shellClient
    buildTask := fun _ => 1
    renderTask := fun _ => 2 }

/-- Environment where the shell's server app has platform `"browser"`. -/
def badShellEnv : Env Nat :=
  { resolve := fun sel => if sel = some "srv" then some badServer else some shellClient
    buildTask := fun _ => 1
    renderTask := fun _ => 2 }

/-- Environment whose applications declare no shell. -/
def plainEnv : Env Nat :=
  { resolve := fun _ => some plainClient
    buildTask := fun _ => 1
    renderTask := fun _ => 2 }

/-- Shell-eligible options: production target, `aot` unset, shell not
skipped. -/
def prodOpts : BuildTaskOptions :=
  { target := "production", aot := none, skipAppShell := false,
    deployUrl := some "https://cdn.example.com/assets", app := some "cli",
    rest := [("outputPath", "dist")] }

/-- Non-eligible options: development target. -/
def devOpts : BuildTaskOptions :=
  { prodOpts with target := "development" }

/-- Shell-eligible options whose deploy URL is the empty string. -/
def emptyUrlOpts : BuildTaskOptions :=
  { prodOpts with deployUrl := some "" }

/-! ### Projection lemmas for the option normalization -/

theorem normalizeOptions_app (o : BuildTaskOptions) :
    (normalizeOptions o).app = o.app := rfl

theorem normalizeOptions_target (o : BuildTaskOptions) :
    (normalizeOptions o).target = o.target := rfl

theorem normalizeOptions_aot (o : BuildTaskOptions) :
    (normalizeOptions o).aot = o.aot := rfl

theorem normalizeOptions_skipAppShell (o : BuildTaskOptions) :
    (normalizeOptions o).skipAppShell = o.skipAppShell := rfl

theorem normalizeOptions_rest (o : BuildTaskOptions) :
    (normalizeOptions o).rest = o.rest := rfl

theorem normalizeOptions_deployUrl (o : BuildTaskOptions) :
    (normalizeOptions o).deployUrl = normalizeDeployUrl o.deployUrl := rfl

theorem doAppShell_normalizeOptions (o : BuildTaskOptions) :
    doAppShell (normalizeOptions o) = doAppShell o := rfl

/-! ### Branch characterizations of `run` -/

/-- When the resolved client application has no shell descriptor, the run is
one resolve plus one client build whose result is returned. -/
theorem run_no_shell_descriptor {α : Type} (env : Env α) (root : String)
    (opts : BuildTaskOptions) (client : AppDescriptor)
    (hc : env.resolve opts.app = some client)
    (hs : client.appShell = none) :
    run env root opts =
      ([Event.resolveCall opts.app, Event.buildCall (normalizeOptions opts)],
        Except.ok (env.buildTask (normalizeOptions opts))) := by
  simp only [run]
  rw [show env.resolve (normalizeOptions opts).app = some client from hc]
  simp only [hs]
  rfl

/-- When shell eligibility fails, the run is one resolve plus one client
build whose result is returned. -/
theorem run_not_eligible {α : Type} (env : Env α) (root : String)
    (opts : BuildTaskOptions) (client : AppDescriptor)
    (hc : env.resolve opts.app = some client)
    (he : doAppShell opts = false) :
    run env root opts =
      ([Event.resolveCall opts.app, Event.buildCall (normalizeOptions opts)],
        Except.ok (env.buildTask (normalizeOptions opts))) := by
  simp only [run]
  rw [show env.resolve (normalizeOptions opts).app = some client from hc]
  simp only [doAppShell_normalizeOptions, he]
  cases hca : client.appShell <;> simp [normalizeOptions_app]

/-- When the shell pipeline is on but the referenced server application's
platform is not `"server"`, the run stops with the platform-mismatch error
after the two resolves. -/
theorem run_platform_guard {α : Type} (env : Env α) (root : String)
    (opts : BuildTaskOptions) (client : AppDescriptor) (sd : ShellDescriptor)
    (srv : AppDescriptor)
    (hc : env.resolve opts.app = some client)
    (hs : client.appShell = some sd)
    (he : doAppShell opts = true)
    (hr : env.resolve (some sd.app) = some srv)
    (hp : srv.platform ≠ "server") :
    run env root opts =
      ([Event.resolveCall opts.app, Event.resolveCall (some sd.app)],
        Except.error (Err.platformMismatch "Shell app's platform is not \"server\"")) := by
  simp only [run]
  rw [show env.resolve (normalizeOptions opts).app = some client from hc]
  simp only [hs, doAppShell_normalizeOptions, he, hr]
  simp [hp, normalizeOptions_app]

/-- When the shell pipeline is on and the platform guard passes, the run is
two resolves, the client build, the server build with the shell app selector,
and the render step whose result is returned. -/
theorem run_shell_success {α : Type} (env : Env α) (root : String)
    (opts : BuildTaskOptions) (client : AppDescriptor) (sd : ShellDescriptor)
    (srv : AppDescriptor)
    (hc : env.resolve opts.app = some client)
    (hs : client.appShell = some sd)
    (he : doAppShell opts = true)
    (hr : env.resolve (some sd.app) = some srv)
    (hp : srv.platform = "server") :
    run env root opts =
      ([Event.resolveCall opts.app, Event.resolveCall (some sd.app),
        Event.buildCall (normalizeOptions opts),
        Event.buildCall { normalizeOptions opts with app := some sd.app },
        Event.renderCall
          { inputIndexPath := pathJoin (pathJoin root client.outDir) client.index
            route := sd.route
            serverOutDir := pathJoin root srv.outDir
            outputIndexPath := pathJoin (pathJoin root client.outDir) client.index }],
        Except.ok (env.renderTask
          { inputIndexPath := pathJoin (pathJoin root client.outDir) client.index
            route := sd.route
            serverOutDir := pathJoin root srv.outDir
            outputIndexPath := pathJoin (pathJoin root client.outDir) client.index })) := by
  simp only [run]
  rw [show env.resolve (normalizeOptions opts).app = some client from hc]
  simp only [hs, doAppShell_normalizeOptions, he, hr]
  simp [hp, normalizeOptions_app]

/-- When the client selector does not resolve, the run fails with
`selectorNotFound` after the single resolve. -/
theorem run_selector_not_found {α : Type} (env : Env α) (root : String)
    (opts : BuildTaskOptions)
    (hc : env.resolve opts.app = none) :
    run env root opts =
      ([Event.resolveCall opts.app], Except.error Err.selectorNotFound) := by
  simp only [run]
  rw [show env.resolve (normalizeOptions opts).app = none from hc]
  rfl

/-- The inner branch where the shell pipeline is on but the server selector
does not resolve. -/
theorem run_server_not_found {α : Type} (env : Env α) (root : String)
    (opts : BuildTaskOptions) (client : AppDescriptor) (sd : ShellDescriptor)
    (hc : env.resolve opts.app = some client)
    (hs : client.appShell = some sd)
    (he : doAppShell opts = true)
    (hr : env.resolve (some sd.app) = none) :
    run env root opts =
      ([Event.resolveCall opts.app, Event.resolveCall (some sd.app)],
        Except.error Err.selectorNotFound) := by
  simp only [run]
  rw [show env.resolve (normalizeOptions opts).app = some client from hc]
  simp only [hs, doAppShell_normalizeOptions, he, hr]
  rfl

/-- `doAppShell` unfolded into the three propositional conditions of the
spec. -/
theorem doAppShell_eq_true (o : BuildTaskOptions) :
    doAppShell o = true ↔
      o.target = "production" ∧ (o.aot = none ∨ o.aot = some true)
        ∧ o.skipAppShell = false := by
  simp [doAppShell, Bool.and_eq_true, Bool.or_eq_true, beq_iff_eq,
    Bool.not_eq_true', and_assoc]

/-- A string extended with `"/"` ends in `'/'`. -/
theorem lastChar_append_slash (s : String) : lastChar (s ++ "/") = some '/' := by
  simp [lastChar, String.data_append]

/-- Every build invocation in a run's trace carries the once-normalized
deploy URL. -/
theorem buildCall_deployUrl {α : Type} (env : Env α) (root : String)
    (opts : BuildTaskOptions) :
    ∀ e ∈ (run env root opts).1, ∀ bo, e = Event.buildCall bo →
      bo.deployUrl = normalizeDeployUrl opts.deployUrl := by
  simp only [run]
  split
  · intro e he bo heq
    subst heq
    simp at he
  · split
    · split
      · intro e he bo heq
        subst heq
        simp at he
      · split
        · intro e he bo heq
          subst heq
          simp at he
        · intro e he bo heq
          subst heq
          simp at he
          rcases he with rfl | rfl
          · exact normalizeOptions_deployUrl opts
          · exact normalizeOptions_deployUrl opts
    · intro e he bo heq
      subst heq
      simp at he
      subst he
      exact normalizeOptions_deployUrl opts

/-! ### Claim theorems -/

/-- C2: whenever a shell descriptor exists, shell eligibility holds, and the
resolved server application's platform kind is not `"server"`, the run ends
with the platform-mismatch error and the build task is never invoked for
either application — the guard executes before the client build. -/
theorem claim_C2_platform_guard_before_builds {α : Type} (env : Env α)
    (root : String) (opts : BuildTaskOptions) (client : AppDescriptor)
    (sd : ShellDescriptor) (srv : AppDescriptor)
    (hc : env.resolve opts.app = some client)
    (hs : client.appShell = some sd)
    (he : doAppShell opts = true)
    (hr : env.resolve (some sd.app) = some srv)
    (hp : srv.platform ≠ "server") :
    (run env root opts).2 =
        Except.error (Err.platformMismatch "Shell app's platform is not \"server\"")
      ∧ calledBuild (run env root opts).1 = false := by
  rw [run_platform_guard env root opts client sd srv hc hs he hr hp]
  exact ⟨rfl, rfl⟩

/-- Witness for C2: a production run whose shell references a
`"browser"`-platform server app fails with the platform mismatch and never
builds. -/
theorem claim_C2_witness :
    (run badShellEnv "/proj" prodOpts).2 =
        Except.error (Err.platformMismatch "Shell app's platform is not \"server\"")
      ∧ calledBuild (run badShellEnv "/proj" prodOpts).1 = false :=
  claim_C2_platform_guard_before_builds badShellEnv "/proj" prodOpts shellClient
    sampleShell badServer rfl rfl rfl rfl (by decide)

/-- C6: when the resolved client application has no shell descriptor, the
run performs exactly one build call, never renders, and returns that build's
result, whatever the target, AOT and skip-shell options are. -/
theorem claim_C6_no_shell_single_build {α : Type} (env : Env α) (root : String)
    (opts : BuildTaskOptions) (client : AppDescriptor)
    (hc : env.resolve opts.app = some client)
    (hs : client.appShell = none) :
    buildCalls (run env root opts).1 = 1
      ∧ ranShell (run env root opts).1 = false
      ∧ (run env root opts).2 = Except.ok (env.buildTask (normalizeOptions opts)) := by
  rw [run_no_shell_descriptor env root opts client hc hs]
  exact ⟨rfl, rfl, rfl⟩

/-- Witness for C6: a shell-eligible production run against a project whose
app declares no shell performs one build and returns its result. -/
theorem claim_C6_witness :
    buildCalls (run plainEnv "/proj" prodOpts).1 = 1
      ∧ ranShell (run plainEnv "/proj" prodOpts).1 = false
      ∧ (run plainEnv "/proj" prodOpts).2 =
          Except.ok (plainEnv.buildTask (normalizeOptions prodOpts)) :=
  claim_C6_no_shell_single_build plainEnv "/proj" prodOpts plainClient rfl rfl

/-- C10: when shell eligibility fails (target not production, or AOT
explicitly disabled, or skip-app-shell set), the run is one resolve and one
client build returning the client result: the server application is never
resolved and no platform-mismatch error can arise, even when the client
declares a shell with a misconfigured server app. -/
theorem claim_C10_not_eligible_no_server_resolution {α : Type} (env : Env α)
    (root : String) (opts : BuildTaskOptions) (client : AppDescriptor)
    (hc : env.resolve opts.app = some client)
    (hne : opts.target ≠ "production" ∨ opts.aot = some false
      ∨ opts.skipAppShell = true) :
    run env root opts =
        ([Event.resolveCall opts.app, Event.buildCall (normalizeOptions opts)],
          Except.ok (env.buildTask (normalizeOptions opts)))
      ∧ (∀ sel, sel ≠ opts.app → resolvedSelector (run env root opts).1 sel = false)
      ∧ (∀ msg, (run env root opts).2 ≠ Except.error (Err.platformMismatch msg)) := by
  have he : doAppShell opts = false := by
    cases hb : doAppShell opts with
    | false => rfl
    | true =>
      exfalso
      rcases (doAppShell_eq_true opts).mp hb with ⟨h1, h2, h3⟩
      rcases hne with h | h | h <;> simp_all
  rw [run_not_eligible env root opts client hc he]
  refine ⟨rfl, ?_, ?_⟩
  · intro sel hsel
    simp [resolvedSelector]
    exact fun h => hsel h.symm
  · intro msg
    simp

/-- Witness for C10: a development-target run against the misconfigured
shell project performs the single client build and cannot raise the
platform mismatch. -/
theorem claim_C10_witness :
    run badShellEnv "/proj" devOpts =
        ([Event.resolveCall devOpts.app, Event.buildCall (normalizeOptions devOpts)],
          Except.ok (badShellEnv.buildTask (normalizeOptions devOpts)))
      ∧ (∀ sel, sel ≠ devOpts.app →
          resolvedSelector (run badShellEnv "/proj" devOpts).1 sel = false)
      ∧ (∀ msg, (run badShellEnv "/proj" devOpts).2 ≠
          Except.error (Err.platformMismatch msg)) :=
  claim_C10_not_eligible_no_server_resolution badShellEnv "/proj" devOpts
    shellClient rfl (Or.inl (by decide))

/-- C4: when the shell pipeline completes, the render task receives the
client app's index-document path as input, the shell route, the server
app's output directory, and an output index path equal to the input index
path; the run's final result is the render result. -/
theorem claim_C4_render_overwrites_in_place {α : Type} (env : Env α)
    (root : String) (opts : BuildTaskOptions) (client : AppDescriptor)
    (sd : ShellDescriptor) (srv : AppDescriptor)
    (hc : env.resolve opts.app = some client)
    (hs : client.appShell = some sd)
    (he : doAppShell opts = true)
    (hr : env.resolve (some sd.app) = some srv)
    (hp : srv.platform = "server") :
    (run env root opts).1.getLast? = some (Event.renderCall
        { inputIndexPath := pathJoin (pathJoin root client.outDir) client.index
          route := sd.route
          serverOutDir := pathJoin root srv.outDir
          outputIndexPath := pathJoin (pathJoin root client.outDir) client.index })
      ∧ (∀ r, Event.renderCall r ∈ (run env root opts).1 →
          r.outputIndexPath = r.inputIndexPath)
      ∧ (run env root opts).2 = Except.ok (env.renderTask
          { inputIndexPath := pathJoin (pathJoin root client.outDir) client.index
            route := sd.route
            serverOutDir := pathJoin root srv.outDir
            outputIndexPath := pathJoin (pathJoin root client.outDir) client.index }) := by
  rw [run_shell_success env root opts client sd srv hc hs he hr hp]
  refine ⟨rfl, ?_, rfl⟩
  intro r hmem
  simp at hmem
  subst hmem
  rfl

/-- Witness for C4: the well-configured shell project renders into the
client's own index document. -/
theorem claim_C4_witness :
    (run shellEnv "/proj" prodOpts).1.getLast? = some (Event.renderCall
        { inputIndexPath := pathJoin (pathJoin "/proj" shellClient.outDir) shellClient.index
          route := sampleShell.route
          serverOutDir := pathJoin "/proj" sampleServer.outDir
          outputIndexPath := pathJoin (pathJoin "/proj" shellClient.outDir) shellClient.index })
      ∧ (∀ r, Event.renderCall r ∈ (run shellEnv "/proj" prodOpts).1 →
          r.outputIndexPath = r.inputIndexPath)
      ∧ (run shellEnv "/proj" prodOpts).2 = Except.ok (shellEnv.renderTask
          { inputIndexPath := pathJoin (pathJoin "/proj" shellClient.outDir) shellClient.index
            route := sampleShell.route
            serverOutDir := pathJoin "/proj" sampleServer.outDir
            outputIndexPath := pathJoin (pathJoin "/proj" shellClient.outDir) shellClient.index }) :=
  claim_C4_render_overwrites_in_place shellEnv "/proj" prodOpts shellClient
    sampleShell sampleServer rfl rfl rfl rfl rfl

/-- C5: the server build receives a copy of the normalized options in which
only the application selector is replaced by the shell's server app
reference; target, AOT, skip-shell, the normalized deploy URL and all
pass-through fields are those of the client build's options. -/
theorem claim_C5_server_options_frame {α : Type} (env : Env α) (root : String)
    (opts : BuildTaskOptions) (client : AppDescriptor) (sd : ShellDescriptor)
    (srv : AppDescriptor)
    (hc : env.resolve opts.app = some client)
    (hs : client.appShell = some sd)
    (he : doAppShell opts = true)
    (hr : env.resolve (some sd.app) = some srv)
    (hp : srv.platform = "server") :
    (run env root opts).1[2]? = some (Event.buildCall (normalizeOptions opts))
      ∧ (run env root opts).1[3]? = some (Event.buildCall
          { normalizeOptions opts with app := some sd.app })
      ∧ ({ normalizeOptions opts with app := some sd.app } : BuildTaskOptions).app
          = some sd.app
      ∧ ({ normalizeOptions opts with app := some sd.app } : BuildTaskOptions).target
          = (normalizeOptions opts).target
      ∧ ({ normalizeOptions opts with app := some sd.app } : BuildTaskOptions).aot
          = (normalizeOptions opts).aot
      ∧ ({ normalizeOptions opts with app := some sd.app } : BuildTaskOptions).skipAppShell
          = (normalizeOptions opts).skipAppShell
      ∧ ({ normalizeOptions opts with app := some sd.app } : BuildTaskOptions).deployUrl
          = normalizeDeployUrl opts.deployUrl
      ∧ ({ normalizeOptions opts with app := some sd.app } : BuildTaskOptions).rest
          = (normalizeOptions opts).rest := by
  rw [run_shell_success env root opts client sd srv hc hs he hr hp]
  exact ⟨rfl, rfl, rfl, rfl, rfl, rfl, rfl, rfl⟩

/-- Witness for C5: in the well-configured shell project the second build
call differs from the first only in the app selector. -/
theorem claim_C5_witness :
    (run shellEnv "/proj" prodOpts).1[2]? =
        some (Event.buildCall (normalizeOptions prodOpts))
      ∧ (run shellEnv "/proj" prodOpts).1[3]? = some (Event.buildCall
          { normalizeOptions prodOpts with app := some sampleShell.app })
      ∧ ({ normalizeOptions prodOpts with app := some sampleShell.app }
          : BuildTaskOptions).app = some sampleShell.app
      ∧ ({ normalizeOptions prodOpts with app := some sampleShell.app }
          : BuildTaskOptions).target = (normalizeOptions prodOpts).target
      ∧ ({ normalizeOptions prodOpts with app := some sampleShell.app }
          : BuildTaskOptions).aot = (normalizeOptions prodOpts).aot
      ∧ ({ normalizeOptions prodOpts with app := some sampleShell.app }
          : BuildTaskOptions).skipAppShell = (normalizeOptions prodOpts).skipAppShell
      ∧ ({ normalizeOptions prodOpts with app := some sampleShell.app }
          : BuildTaskOptions).deployUrl = normalizeDeployUrl prodOpts.deployUrl
      ∧ ({ normalizeOptions prodOpts with app := some sampleShell.app }
          : BuildTaskOptions).rest = (normalizeOptions prodOpts).rest :=
  claim_C5_server_options_frame shellEnv "/proj" prodOpts shellClient
    sampleShell sampleServer rfl rfl rfl rfl rfl

/-- C7: when the shell pipeline executes, the external invocations are
exactly the client build, then the server build, then the render, in that
order, and the run returns the render result. -/
theorem claim_C7_sequence_client_server_render {α : Type} (env : Env α)
    (root : String) (opts : BuildTaskOptions) (client : AppDescriptor)
    (sd : ShellDescriptor) (srv : AppDescriptor)
    (hc : env.resolve opts.app = some client)
    (hs : client.appShell = some sd)
    (he : doAppShell opts = true)
    (hr : env.resolve (some sd.app) = some srv)
    (hp : srv.platform = "server") :
    invocations (run env root opts).1 =
        [Event.buildCall (normalizeOptions opts),
         Event.buildCall { normalizeOptions opts with app := some sd.app },
         Event.renderCall
           { inputIndexPath := pathJoin (pathJoin root client.outDir) client.index
             route := sd.route
             serverOutDir := pathJoin root srv.outDir
             outputIndexPath := pathJoin (pathJoin root client.outDir) client.index }]
      ∧ (run env root opts).2 = Except.ok (env.renderTask
          { inputIndexPath := pathJoin (pathJoin root client.outDir) client.index
            route := sd.route
            serverOutDir := pathJoin root srv.outDir
            outputIndexPath := pathJoin (pathJoin root client.outDir) client.index }) := by
  rw [run_shell_success env root opts client sd srv hc hs he hr hp]
  exact ⟨rfl, rfl⟩

/-- Witness for C7: the well-configured shell project yields exactly
build, build, render and returns the render result. -/
theorem claim_C7_witness :
    invocations (run shellEnv "/proj" prodOpts).1 =
        [Event.buildCall (normalizeOptions prodOpts),
         Event.buildCall { normalizeOptions prodOpts with app := some sampleShell.app },
         Event.renderCall
           { inputIndexPath := pathJoin (pathJoin "/proj" shellClient.outDir) shellClient.index
             route := sampleShell.route
             serverOutDir := pathJoin "/proj" sampleServer.outDir
             outputIndexPath := pathJoin (pathJoin "/proj" shellClient.outDir) shellClient.index }]
      ∧ (run shellEnv "/proj" prodOpts).2 = Except.ok (shellEnv.renderTask
          { inputIndexPath := pathJoin (pathJoin "/proj" shellClient.outDir) shellClient.index
            route := sampleShell.route
            serverOutDir := pathJoin "/proj" sampleServer.outDir
            outputIndexPath := pathJoin (pathJoin "/proj" shellClient.outDir) shellClient.index }) :=
  claim_C7_sequence_client_server_render shellEnv "/proj" prodOpts shellClient
    sampleShell sampleServer rfl rfl rfl rfl rfl

/-- C9: an empty-string deploy URL is treated like an absent one by the
truthiness guard: normalization leaves it unchanged, and every build call
of the run still sees the empty deploy URL without a separator. -/
theorem claim_C9_empty_deploy_url_unchanged {α : Type} (env : Env α)
    (root : String) (opts : BuildTaskOptions)
    (h : opts.deployUrl = some "") :
    normalizeDeployUrl opts.deployUrl = some ""
      ∧ lastChar "" ≠ some '/'
      ∧ (∀ e ∈ (run env root opts).1, ∀ bo, e = Event.buildCall bo →
          bo.deployUrl = some "") := by
  refine ⟨by rw [h]; rfl, by decide, ?_⟩
  intro e hmem bo heq
  have := buildCall_deployUrl env root opts e hmem bo heq
  rw [this, h]
  rfl

/-- Witness for C9: a run whose options carry `deployUrl = ""` builds with
the empty deploy URL untouched. -/
theorem claim_C9_witness :
    normalizeDeployUrl emptyUrlOpts.deployUrl = some ""
      ∧ lastChar "" ≠ some '/'
      ∧ (∀ e ∈ (run shellEnv "/proj" emptyUrlOpts).1, ∀ bo,
          e = Event.buildCall bo → bo.deployUrl = some "") :=
  claim_C9_empty_deploy_url_unchanged shellEnv "/proj" emptyUrlOpts rfl

/-- Counterexample for C3: the options record with `deployUrl = ""` has a
deploy URL without a trailing separator, yet normalization does not append
one (JavaScript truthiness skips the empty string). -/
theorem claim_C3_counterexample :
    emptyUrlOpts.deployUrl = some ""
      ∧ lastChar "" ≠ some '/'
      ∧ (normalizeOptions emptyUrlOpts).deployUrl ≠ some ("" ++ "/")
      ∧ (normalizeOptions emptyUrlOpts).deployUrl = some "" := by
  decide

/-- C3 (amended to non-empty deploy URLs): a present non-empty deploy URL
without a trailing separator gets exactly one appended; one ending in a
separator is left unchanged; normalization is idempotent; and every build
call of a run reads the once-normalized value. -/
theorem claim_C3_amended_normalization :
    (∀ s : String, s ≠ "" → lastChar s ≠ some '/' →
        normalizeDeployUrl (some s) = some (s ++ "/"))
      ∧ (∀ s : String, lastChar s = some '/' →
          normalizeDeployUrl (some s) = some s)
      ∧ (∀ d : Option String,
          normalizeDeployUrl (normalizeDeployUrl d) = normalizeDeployUrl d)
      ∧ (∀ (α : Type) (env : Env α) (root : String) (opts : BuildTaskOptions),
          ∀ e ∈ (run env root opts).1, ∀ bo, e = Event.buildCall bo →
            bo.deployUrl = normalizeDeployUrl opts.deployUrl) := by
  refine ⟨?_, ?_, ?_, ?_⟩
  · intro s h1 h2
    simp [normalizeDeployUrl, h1, h2]
  · intro s h
    simp [normalizeDeployUrl, h]
  · intro d
    match d with
    | none => rfl
    | some s =>
      by_cases h1 : s = ""
      · subst h1; rfl
      · by_cases h2 : lastChar s = some '/'
        · simp [normalizeDeployUrl, h2]
        · simp [normalizeDeployUrl, h1, h2, lastChar_append_slash]
  · intro α env root opts
    exact buildCall_deployUrl env root opts

/-- Witness for C3 (amended): the sample CDN URL gains exactly one trailing
separator. -/
theorem claim_C3_witness :
    normalizeDeployUrl (some "https://cdn.example.com/assets")
      = some ("https://cdn.example.com/assets" ++ "/") :=
  claim_C3_amended_normalization.1 "https://cdn.example.com/assets"
    (by decide) (by decide)

/-- Counterexample for C1: all four conditions hold (production target,
`aot` unset, shell not skipped, shell descriptor declared), yet the shell
pipeline does not run — the platform guard aborts the run first, so the
four conditions are not sufficient. -/
theorem claim_C1_counterexample :
    prodOpts.target = "production"
      ∧ (prodOpts.aot = none ∨ prodOpts.aot = some true)
      ∧ prodOpts.skipAppShell = false
      ∧ badShellEnv.resolve prodOpts.app = some shellClient
      ∧ shellClient.appShell = some sampleShell
      ∧ ranShell (run badShellEnv "/proj" prodOpts).1 = false
      ∧ calledBuild (run badShellEnv "/proj" prodOpts).1 = false := by
  refine ⟨rfl, Or.inl rfl, rfl, rfl, rfl, rfl, rfl⟩

/-- C1 (amended): the shell pipeline runs if and only if the four declared
conditions hold and, additionally, the referenced server application
resolves to a descriptor of platform kind `"server"`; the decision is a
single computation over the initial options and configuration. -/
theorem claim_C1_amended_shell_iff {α : Type} (env : Env α) (root : String)
    (opts : BuildTaskOptions) :
    ranShell (run env root opts).1 = true ↔
      (opts.target = "production" ∧ (opts.aot = none ∨ opts.aot = some true)
        ∧ opts.skipAppShell = false
        ∧ ∃ client sd srv, env.resolve opts.app = some client
            ∧ client.appShell = some sd
            ∧ env.resolve (some sd.app) = some srv
            ∧ srv.platform = "server") := by
  rcases hres : env.resolve opts.app with _ | client
  · rw [run_selector_not_found env root opts hres]
    constructor
    · intro h
      simp [ranShell] at h
    · rintro ⟨-, -, -, client', sd', srv', hres', -⟩
      exact Option.noConfusion hres'
  · rcases hca : client.appShell with _ | sd
    · rw [run_no_shell_descriptor env root opts client hres hca]
      constructor
      · intro h
        simp [ranShell] at h
      · rintro ⟨-, -, -, client', sd', srv', hres', hca', -⟩
        injection hres' with h'
        subst h'
        rw [hca] at hca'
        exact Option.noConfusion hca'
    · cases hde : doAppShell opts with
      | false =>
        rw [run_not_eligible env root opts client hres hde]
        constructor
        · intro h
          simp [ranShell] at h
        · rintro ⟨h1, h2, h3, -⟩
          exact absurd ((doAppShell_eq_true opts).mpr ⟨h1, h2, h3⟩)
            (by simp [hde])
      | true =>
        rcases hsrv : env.resolve (some sd.app) with _ | srv
        · rw [run_server_not_found env root opts client sd hres hca hde hsrv]
          constructor
          · intro h
            simp [ranShell] at h
          · rintro ⟨-, -, -, client', sd', srv', hres', hca', hrs', -⟩
            injection hres' with h'
            subst h'
            rw [hca] at hca'
            injection hca' with h'
            subst h'
            rw [hsrv] at hrs'
            exact Option.noConfusion hrs'
        · by_cases hp : srv.platform = "server"
          · rw [run_shell_success env root opts client sd srv hres hca hde hsrv hp]
            constructor
            · intro _
              exact ⟨((doAppShell_eq_true opts).mp hde).1,
                ((doAppShell_eq_true opts).mp hde).2.1,
                ((doAppShell_eq_true opts).mp hde).2.2,
                client, sd, srv, rfl, hca, hsrv, hp⟩
            · intro _
              rfl
          · rw [run_platform_guard env root opts client sd srv hres hca hde hsrv hp]
            constructor
            · intro h
              simp [ranShell] at h
            · rintro ⟨-, -, -, client', sd', srv', hres', hca', hrs', hp'⟩
              injection hres' with h'
              subst h'
              rw [hca] at hca'
              injection hca' with h'
              subst h'
              rw [hsrv] at hrs'
              injection hrs' with h'
              subst h'
              exact absurd hp' hp

/-- Witness for C1 (amended): the well-configured production project does
run the shell pipeline. -/
theorem claim_C1_witness :
    ranShell (run shellEnv "/proj" prodOpts).1 = true :=
  (claim_C1_amended_shell_iff shellEnv "/proj" prodOpts).mpr
    ⟨rfl, Or.inl rfl, rfl, shellClient, sampleShell, sampleServer, rfl, rfl,
      rfl, rfl⟩

/-- C8: validation consists of exactly two independent checks — it succeeds
returning `true` precisely when both pass; a failing first or second check
aborts the whole run before any build work (the composed run performs no
external invocation and surfaces the check's error); and validation never
returns any value but `true`. -/
theorem claim_C8_validate_two_checks :
    (∀ fw ts : Except Err Unit,
        validate fw ts = Except.ok true ↔
          fw = Except.ok () ∧ ts = Except.ok ())
      ∧ (∀ (e : Err) (ts : Except Err Unit) (α : Type) (env : Env α)
          (root : String) (opts : BuildTaskOptions),
          fullRun (Except.error e) ts env root opts = ([], Except.error e))
      ∧ (∀ (e : Err) (α : Type) (env : Env α) (root : String)
          (opts : BuildTaskOptions),
          fullRun (Except.ok ()) (Except.error e) env root opts
            = ([], Except.error e))
      ∧ (∀ fw ts : Except Err Unit, validate fw ts = Except.ok true
          ∨ ∃ e, validate fw ts = Except.error e) := by
  refine ⟨?_, ?_, ?_, ?_⟩
  · intro fw ts
    constructor
    · intro h
      cases fw with
      | error e => simp [validate] at h
      | ok u =>
        cases ts with
        | error e => simp [validate] at h
        | ok v => exact ⟨rfl, rfl⟩
    · rintro ⟨rfl, rfl⟩
      rfl
  · intro e ts α env root opts
    rfl
  · intro e α env root opts
    rfl
  · intro fw ts
    cases fw with
    | error e => exact Or.inr ⟨e, rfl⟩
    | ok u =>
      cases ts with
      | error e => exact Or.inr ⟨e, rfl⟩
      | ok v => exact Or.inl rfl

/-- Witness for C8: with both version checks passing, validation returns
`true`. -/
theorem claim_C8_witness :
    validate (Except.ok ()) (Except.ok ()) = Except.ok true :=
  (claim_C8_validate_two_checks.1 (Except.ok ()) (Except.ok ())).mpr ⟨rfl, rfl⟩
